import Mathlib

/-!
Verification of the travis-worker GCE backend (cmd/travis-worker/main.go).

The Go source drives external effects (the GCE compute REST API, SSH, SFTP,
AMQP). Each external call site is modeled by an oracle field in an
environment record: the field holds the value the external system would
return at that call site. The functions below are otherwise direct
transcriptions of the Go control flow. Machine integers are modeled as Nat
with explicit reduction modulo 256 where the source casts to uint8.
-/

deriving instance DecidableEq for Except

namespace Worker

/-- One sub-error of a GCE operation error (compute.OperationErrorErrors:
fields Code, Location, Message). -/
structure OpErrorItem where
  code : String
  location : String
  message : String
  deriving DecidableEq

/-- compute.OperationError: the list of sub-errors attached to a finished
zone operation. -/
structure OperationError where
  errors : List OpErrorItem
  deriving DecidableEq

/-- Result of ctx.Err() for a Go context whose Done channel has fired:
context.Canceled or context.DeadlineExceeded. -/
inductive CtxError where
  | canceled
  | deadlineExceeded
  deriving DecidableEq

/-- Go error values that flow through the backend. errStaleVM models the
sentinel ErrStaleVM of package backend; missingIPAddress models the
gceMissingIPAddressError sentinel of main.go; opErr wraps a gceOpError;
ctxErr is an error obtained from ctx.Err(); other covers transport and
API errors, carrying their message. -/
inductive GoErr where
  | errStaleVM
  | missingIPAddress
  | opErr (e : OperationError)
  | ctxErr (c : CtxError)
  | other (msg : String)
  deriving DecidableEq

/-- The sentinel error ErrStaleVM (package backend). -/
def ErrStaleVM : GoErr := .errStaleVM

/-- The sentinel gceMissingIPAddressError = fmt.Errorf("no IP address found"). -/
def gceMissingIPAddressError : GoErr := .missingIPAddress

/-- Formatting of one sub-error inside gceOpError.Error:
fmt.Sprintf("code=%s location=%s message=%s", ...). -/
def gceOpErrorItemString (e : OpErrorItem) : String :=
  "code=" ++ e.code ++ " location=" ++ e.location ++ " message=" ++ e.message

/-- gceOpError.Error(): formats every sub-error and joins the strings with
", " (strings.Join). -/
def gceOpErrorMessage (oe : OperationError) : String :=
  String.intercalate ", " (oe.errors.map gceOpErrorItemString)

/-- StartAttributes: the projection of a job passed to Provider.Start. -/
structure StartAttributes where
  language : String
  deriving DecidableEq

/-- A compute image as returned by the Images.List API: its name and its
self link, the two fields the backend reads. -/
structure Image where
  name : String
  selfLink : String
  deriving DecidableEq

/-- compute.AttachedDiskInitializeParams fields set by the backend. -/
structure AttachedDiskInitializeParams where
  sourceImage : String
  diskType : String
  diskSizeGb : Int
  deriving DecidableEq

/-- compute.AttachedDisk fields set by the backend. The Go field Type is
renamed to type. -/
structure AttachedDisk where
  type : String
  mode : String
  boot : Bool
  autoDelete : Bool
  initializeParams : AttachedDiskInitializeParams
  deriving DecidableEq

/-- compute.Scheduling: only Preemptible is used. -/
structure Scheduling where
  preemptible : Bool
  deriving DecidableEq

/-- compute.AccessConfig: Name, Type, and the NatIP the control plane fills
in once the VM has an external address (empty string when absent, as for
the Go zero value). -/
structure AccessConfig where
  name : String
  type : String
  natIP : String
  deriving DecidableEq

/-- compute.NetworkInterface. AccessConfigs is Option (List _) so that a nil
slice (checked explicitly by getIP) stays distinguishable from an empty one. -/
structure NetworkInterface where
  accessConfigs : Option (List AccessConfig)
  network : String
  deriving DecidableEq

/-- compute.MetadataItems: one key/value metadata entry. -/
structure MetadataItems where
  key : String
  value : String
  deriving DecidableEq

/-- compute.ServiceAccount fields set by the backend. -/
structure ServiceAccount where
  email : String
  scopes : List String
  deriving DecidableEq

/-- The compute.Instance record as built and observed by the backend. -/
structure ComputeInstance where
  description : String
  disks : List AttachedDisk
  scheduling : Scheduling
  machineType : String
  name : String
  metadata : List MetadataItems
  networkInterfaces : List NetworkInterface
  serviceAccounts : List ServiceAccount
  tags : List String
  deriving DecidableEq

/-- gceInstanceConfig: the per-provider instance configuration. The
MachineType, Zone and Network records are reduced to the self links and
names the Start path reads. SSHKeySigner is not represented: the signer is
opaque to every property stated here and only its use as a public-key auth
method is modeled (SSHAuthMethod.publicKeys). -/
structure GCEInstanceConfig where
  machineTypeSelfLink : String
  zoneName : String
  networkSelfLink : String
  diskType : String
  diskSize : Int
  sshPubKey : String
  deriving DecidableEq

/-- GCEProvider: configuration shared by all instances it starts. -/
structure GCEProvider where
  projectID : String
  defaultLanguage : String
  languageMappings : List (String × String)
  ic : GCEInstanceConfig
  deriving DecidableEq

/-- GCEInstance: the backend handle for one VM. The Go field instance is
renamed to inst (instance is a Lean keyword). -/
structure GCEInstance where
  inst : ComputeInstance
  authUser : String
  projectID : String
  imageName : String
  deriving DecidableEq

/-- The gceStartupScript template applied to the configured public key:
a bash script that writes the key into ~travis/.ssh/authorized_keys. -/
def gceStartupScript (pubKey : String) : String :=
  "#!/usr/bin/env bash\ncat > ~travis/.ssh/authorized_keys <<EOF\n" ++ pubKey ++ "\nEOF\n"

def devstorageFullControlScope : String :=
  "https://www.googleapis.com/auth/devstorage.full_control"

def computeScope : String := "https://www.googleapis.com/auth/compute"

/-- Executable prefix test on char lists (String.isPrefixOf does not reduce
in the kernel). -/
def isPrefixChars : List Char → List Char → Bool
  | [], _ => true
  | _ :: _, [] => false
  | a :: as, b :: bs => a == b && isPrefixChars as bs

/-- Semantics of the server-side filter gceImagesFilter =
"name eq ^travis-ci-%s.+": the image name matches exactly when it is
"travis-ci-" ++ language followed by at least one further character (the
language tag is taken literally; the tags in play contain no regex
metacharacters). -/
def gceImageNameMatches (language name : String) : Bool :=
  let pat := "travis-ci-" ++ language
  isPrefixChars pat.data name.data && pat.length < name.length

/-- Boolean lexicographic comparison on char lists; an executable mirror of
the byte-wise string comparison Go uses in sort.Strings. Related to the
String order of Mathlib by strLt_iff below. -/
def strLtChars : List Char → List Char → Bool
  | [], [] => false
  | [], _ :: _ => true
  | _ :: _, [] => false
  | a :: as, b :: bs => if a < b then true else if b < a then false else strLtChars as bs

/-- Lexicographic comparison of strings. -/
def strLt (a b : String) : Bool := strLtChars a.data b.data

/-- Larger of two strings in the lexicographic order. -/
def strMax (a b : String) : String := if strLt a b then b else a

/-- Lexicographically greatest string among s and l. sort.Strings followed
by indexing the last element, as the source does, computes exactly this
maximum. -/
def maxStr (s : String) : List String → String
  | [] => s
  | x :: xs => maxStr (strMax s x) xs

/-- The lookup imagesByName[n] where imagesByName was filled from imgs in
order: Go map insertion overwrites, so the match latest in the list wins. -/
def findLastByName : List Image → String → Option Image
  | [], _ => none
  | img :: rest, n =>
    match findLastByName rest n with
    | some i2 => some i2
    | none => if img.name = n then some img else none

/-- GCEProvider.imageForLanguage: list the project images matching the
name filter for the language, fail when none match, otherwise sort the
names ascending and return the image registered under the greatest name. -/
def imageForLanguage (allImages : List Image) (language : String) : Except GoErr Image :=
  match allImages.filter (fun img => gceImageNameMatches language img.name) with
  | [] => .error (.other ("no image found with language " ++ language))
  | first :: rest =>
    match findLastByName (first :: rest) (maxStr first.name (rest.map Image.name)) with
    | some img => .ok img
    | none => .ok first

/-- The candidateLangs slice built by GCEProvider.Start: the job language
first, then the mapped language when languageMappings has an entry for the
job language, then the configured default language. -/
def candidateLangs (p : GCEProvider) (language : String) : List String :=
  [language] ++
    (match p.languageMappings.lookup language with
     | some mapped => [mapped]
     | none => []) ++
    [p.defaultLanguage]

/-- The image-selection loop of GCEProvider.Start: try each candidate in
order, stop at the first success, keep the error of the last attempt
otherwise. The nil case is unreachable because candidateLangs is never
empty. -/
def tryCandidates (f : String → Except GoErr Image) : List String → Except GoErr Image
  | [] => .error (.other "no image found")
  | [language] => f language
  | language :: rest =>
    match f language with
    | .ok img => .ok img
    | .error _ => tryCandidates f rest

/-- Image selection of GCEProvider.Start: the candidate loop over
imageForLanguage. -/
def selectImage (p : GCEProvider) (language : String) (allImages : List Image) :
    Except GoErr Image :=
  tryCandidates (imageForLanguage allImages) (candidateLangs p language)

/-- The compute.Instance insertion request built by GCEProvider.Start,
field by field as in the source; uuid stands for the generated
uuid.NewUUID() in the instance name. -/
def gceBuildInst (p : GCEProvider) (language : String) (image : Image) (uuid : String) :
    ComputeInstance :=
  { description := "Travis CI " ++ language ++ " test VM"
  , disks := [{ type := "PERSISTENT"
              , mode := "READ_WRITE"
              , boot := true
              , autoDelete := true
              , initializeParams := { sourceImage := image.selfLink
                                    , diskType := p.ic.diskType
                                    , diskSizeGb := p.ic.diskSize } }]
  , scheduling := { preemptible := true }
  , machineType := p.ic.machineTypeSelfLink
  , name := "testing-gce-" ++ uuid
  , metadata := [{ key := "startup-script", value := gceStartupScript p.ic.sshPubKey }]
  , networkInterfaces := [{ accessConfigs := some [{ name := "AccessConfig brought to you by travis-worker"
                                                   , type := "ONE_TO_ONE_NAT"
                                                   , natIP := "" }]
                          , network := p.ic.networkSelfLink }]
  , serviceAccounts := [{ email := "default"
                        , scopes := [ "https://www.googleapis.com/auth/userinfo.email"
                                    , devstorageFullControlScope
                                    , computeScope ] }]
  , tags := ["testing", language] }

/-- The first event observed by a select over a zone-operation poll loop
and ctx.Done(): the operation reached status DONE (with its optional
operation error), a poll request failed, or the context fired first. -/
inductive PollEvent where
  | done (opError : Option OperationError)
  | pollFailed (e : GoErr)
  | ctxDone (c : CtxError)
  deriving DecidableEq

/-- Oracles for one GCEProvider.Start call: the project images the API
would list, the generated uuid, the outcome of Instances.Insert (none =
success), and the first event of the boot wait. -/
structure StartEnv where
  allImages : List Image
  uuid : String
  insertError : Option GoErr
  bootEvent : PollEvent

/-- GCEProvider.Start: select an image for the job language, build and
insert the instance request, then wait on (instanceReady, errChan,
ctx.Done()). On the ready event the returned handle wraps the request
record inst with authUser travis; on a poll or operation error that error
is returned; when the context fires first the result is (nil, ctx.Err()). -/
def GCEProvider.Start (p : GCEProvider) (startAttributes : StartAttributes)
    (env : StartEnv) : Except GoErr GCEInstance :=
  match selectImage p startAttributes.language env.allImages with
  | .error e => .error e
  | .ok image =>
    match env.insertError with
    | some e => .error e
    | none =>
      match env.bootEvent with
      | .done none => .ok { inst := gceBuildInst p startAttributes.language image env.uuid
                          , authUser := "travis"
                          , projectID := p.projectID
                          , imageName := image.name }
      | .done (some oe) => .error (.opErr oe)
      | .pollFailed e => .error e
      | .ctxDone c => .error (.ctxErr c)

/-- GCEInstance.getIP, inner loop: first non-empty NatIP in a list of
access configs. -/
def firstNatIP : List AccessConfig → Option String
  | [] => none
  | ac :: rest => if ac.natIP ≠ "" then some ac.natIP else firstNatIP rest

/-- GCEInstance.getIP, outer loop: scan the network interfaces, skip a nil
AccessConfigs slice, return the first non-empty NatIP, or "" when no
interface carries one. -/
def getIPFromInterfaces : List NetworkInterface → String
  | [] => ""
  | ni :: rest =>
    match ni.accessConfigs with
    | none => getIPFromInterfaces rest
    | some acs =>
      match firstNatIP acs with
      | some ip => ip
      | none => getIPFromInterfaces rest

/-- GCEInstance.getIP. -/
def GCEInstance.getIP (i : GCEInstance) : String :=
  getIPFromInterfaces i.inst.networkInterfaces

/-- The authentication method handed to ssh.Dial:
ssh.PublicKeys(i.ic.SSHKeySigner). -/
inductive SSHAuthMethod where
  | publicKeys
  deriving DecidableEq

/-- The ssh.Client produced by a successful ssh.Dial, reduced to the
observable parameters of the dial: address, user and auth method. -/
structure SSHConn where
  addr : String
  user : String
  auth : SSHAuthMethod
  deriving DecidableEq

/-- Oracles for one GCEInstance.sshClient call: the instance record a
successful Instances.Get refresh would return (none when the refresh call
fails, an error sshClient ignores), and the failure of ssh.Dial if any. -/
structure SSHEnv where
  refreshResult : Option ComputeInstance
  dialError : Option GoErr
  deriving DecidableEq

/-- Effect of the (error-ignored) refreshInstance call at the top of
sshClient: on success the handle carries the fresh record, otherwise it is
left unchanged. -/
def refreshedInstance (i : GCEInstance) (env : SSHEnv) : GCEInstance :=
  match env.refreshResult with
  | some newInst => { i with inst := newInst }
  | none => i

/-- GCEInstance.sshClient: refresh the instance record, read the NAT IP,
fail with gceMissingIPAddressError when it is empty (before any dial),
otherwise dial tcp ip:22 as authUser with public-key auth. -/
def GCEInstance.sshClient (i : GCEInstance) (env : SSHEnv) : Except GoErr SSHConn :=
  let j := refreshedInstance i env
  let ipAddr := j.getIP
  if ipAddr = "" then
    .error gceMissingIPAddressError
  else
    match env.dialError with
    | some e => .error e
    | none => .ok { addr := ipAddr ++ ":22", user := j.authUser, auth := .publicKeys }

/-- The fixed script path used by uploadScriptAttempt (sftp.Lstat and
sftp.Create both receive this literal). -/
def gceBuildScriptPath : String := "build.sh"

/-- The file written by a successful upload attempt: its path (relative to
the home directory of the authenticated user, where the SFTP session
starts) and its contents. -/
structure SFTPWrite where
  path : String
  contents : List UInt8
  deriving DecidableEq

/-- Oracles for one uploadScriptAttempt call: the sshClient oracles, the
failure of sftp.NewClient if any, the set of file names Lstat finds in the
session directory, and the failures of Create and Write if any. -/
structure UploadEnv where
  ssh : SSHEnv
  sftpNewClientError : Option GoErr
  files : List String
  createError : Option GoErr
  writeError : Option GoErr
  deriving DecidableEq

/-- GCEInstance.uploadScriptAttempt: open ssh and sftp, Lstat build.sh and
return ErrStaleVM when the Lstat succeeds (the file exists; an Lstat
failure of any kind means the attempt proceeds, as in the source where
only err == nil is stale), otherwise create the file and write the script.
The successful write is returned as the attempt result. -/
def GCEInstance.uploadScriptAttempt (i : GCEInstance) (env : UploadEnv)
    (script : List UInt8) : Except GoErr SFTPWrite :=
  match i.sshClient env.ssh with
  | .error e => .error e
  | .ok _ =>
    match env.sftpNewClientError with
    | some e => .error e
    | none =>
      if env.files.contains gceBuildScriptPath then
        .error ErrStaleVM
      else
        match env.createError with
        | some e => .error e
        | none =>
          match env.writeError with
          | some e => .error e
          | none => .ok { path := gceBuildScriptPath, contents := script }

/-- GCEInstance.UploadScript. The source starts a goroutine that retries
uploadScriptAttempt in an unbounded loop, blocks sending on uploadedChan
after a successful attempt, and stores each failure in the shared variable
uploadErr; the caller selects over (uploadedChan, ctx.Done()) and returns
nil on the first and uploadErr on the second. The interleaving is modeled
by ctxDoneAfter, the number of attempts that have completed when ctx.Done
fires (job contexts carry deadlines, so the model takes the context to
fire eventually): a success among those attempts is received first and the
call returns nil; otherwise the call returns once the context fires, with
uploadErr = the error of the last completed attempt, or nil when the
context fired before any attempt completed, since uploadErr still holds
its initial nil. -/
def GCEInstance.UploadScript (i : GCEInstance) (script : List UInt8)
    (envs : Nat → UploadEnv) (ctxDoneAfter : Nat) : Option GoErr :=
  if (List.range ctxDoneAfter).any
      (fun k => (i.uploadScriptAttempt (envs k) script).toBool) then
    none
  else
    match ctxDoneAfter with
    | 0 => none
    | n + 1 =>
      match i.uploadScriptAttempt (envs n) script with
      | .ok _ => none
      | .error e => some e

/-- Result of session.Run as discriminated by RunScript: a nil error
(natural exit with status 0), an ssh.ExitError carrying the remote exit
status, or any other error. -/
inductive RunOutcome where
  | exitZero
  | exitErrorStatus (status : Nat)
  | otherErr (e : GoErr)
  deriving DecidableEq

/-- Oracles for one RunScript call: the sshClient oracles, the failures of
NewSession and RequestPty if any, and the outcome of session.Run as a
function of the command string it is given. -/
structure RunEnv where
  ssh : SSHEnv
  newSessionError : Option GoErr
  requestPtyError : Option GoErr
  run : String → RunOutcome

/-- RunResult: completed=true means the script ran to a natural exit;
exitCode models the uint8 field, kept below 256 by the explicit reduction
at the only cast site. -/
structure RunResult where
  completed : Bool
  exitCode : Nat
  deriving DecidableEq

/-- The command RunScript passes to session.Run. -/
def gceRunCommand : String := "bash ~/build.sh"

/-- The tail of RunScript after session.Run returns: nil maps to
(completed, exit 0); an ssh.ExitError maps to completed with the status
cast to uint8; any other error maps to (not completed, that error). -/
def interpRunOutcome : RunOutcome → RunResult × Option GoErr
  | .exitZero => ({ completed := true, exitCode := 0 }, none)
  | .exitErrorStatus s => ({ completed := true, exitCode := s % 256 }, none)
  | .otherErr e => ({ completed := false, exitCode := 0 }, some e)

/-- GCEInstance.RunScript: open ssh, open a session, request a pty; any
failure of those returns (RunResult{Completed:false}, err); then run
gceRunCommand and interpret its outcome. The combined stdout and stderr
stream is directed at the caller-supplied sink and is not part of the
returned value. -/
def GCEInstance.RunScript (i : GCEInstance) (env : RunEnv) :
    RunResult × Option GoErr :=
  match i.sshClient env.ssh with
  | .error e => ({ completed := false, exitCode := 0 }, some e)
  | .ok _ =>
    match env.newSessionError with
    | some e => ({ completed := false, exitCode := 0 }, some e)
    | none =>
      match env.requestPtyError with
      | some e => ({ completed := false, exitCode := 0 }, some e)
      | none => interpRunOutcome (env.run gceRunCommand)

/-- Oracles for one GCEInstance.Stop call: the outcome of Instances.Delete
(none = success) and the first event of the poll loop over the resulting
zone operation. -/
structure StopEnv where
  deleteError : Option GoErr
  pollEvent : PollEvent
  deriving DecidableEq

/-- GCEInstance.Stop: issue Instances.Delete, return its error on failure;
otherwise poll the zone operation until DONE or ctx.Done() and return nil
on a clean DONE, a gceOpError wrapping the operation error on a DONE with
errors, the poll error on a failed poll, and ctx.Err() when the context
fires first. -/
def GCEInstance.Stop (i : GCEInstance) (env : StopEnv) : Option GoErr :=
  match env.deleteError with
  | some e => some e
  | none =>
    match env.pollEvent with
    | .done none => none
    | .done (some oe) => some (.opErr oe)
    | .pollFailed e => some e
    | .ctxDone c => some (.ctxErr c)

/-- How one runWorker call ends: an early logged return from a failed AMQP
dial, a failed backend-provider construction, a failed AMQP close, or the
clean fall-through return. -/
inductive WorkerExit where
  | amqpDialFailed (e : GoErr)
  | providerFailed (e : GoErr)
  | amqpCloseFailed (e : GoErr)
  | cleanReturn
  deriving DecidableEq

/-- Oracles for one runWorker call: the failures, if any, of amqp.Dial,
backend.NewProvider and amqpConn.Close. -/
structure WorkerEnv where
  amqpDialError : Option GoErr
  newProviderError : Option GoErr
  amqpCloseError : Option GoErr
  deriving DecidableEq

/-- runWorker: connect to AMQP, build the provider, run the pool, close the
connection. Every failure path logs the error and returns from the
function; nothing else distinguishes it to the caller, since the cli
Action signature has no error result. -/
def runWorker (env : WorkerEnv) : WorkerExit :=
  match env.amqpDialError with
  | some e => .amqpDialFailed e
  | none =>
    match env.newProviderError with
    | some e => .providerFailed e
    | none =>
      match env.amqpCloseError with
      | some e => .amqpCloseFailed e
      | none => .cleanReturn

/-- Exit status of the worker process: main calls app.Run(os.Args) and
ignores its result, runWorker returns normally on every path above, and
os.Exit is never called, so main returns normally and the process exit
status is 0 whatever runWorker did. -/
def mainExitStatus (env : WorkerEnv) : Nat :=
  match runWorker env with
  | _ => 0

/-- Modelled from the spec: the candidate order stated in section 4.A,
"try languageMappings[lang] if present, else lang, else defaultLanguage" —
the mapped language replaces the job language at the head of the order.
Present only to be compared with candidateLangs, the order the code
builds. -/
def specCandidateLangs (p : GCEProvider) (language : String) : List String :=
  (match p.languageMappings.lookup language with
   | some mapped => [mapped]
   | none => [language]) ++ [p.defaultLanguage]

/-- Image selection under the candidate order of the spec sentence. -/
def specSelectImage (p : GCEProvider) (language : String) (allImages : List Image) :
    Except GoErr Image :=
  tryCandidates (imageForLanguage allImages) (specCandidateLangs p language)

/-! Concrete sample inputs shared by the witnesses and counterexamples. -/

def sampleIC : GCEInstanceConfig :=
  { machineTypeSelfLink := "zones/us-central1-a/machineTypes/n1-standard-2"
  , zoneName := "us-central1-a"
  , networkSelfLink := "global/networks/default"
  , diskType := "zones/us-central1-a/diskTypes/pd-standard"
  , diskSize := 20
  , sshPubKey := "ssh-rsa AAAAB3Nza travis" }

def sampleProviderPlain : GCEProvider :=
  { projectID := "travis-ci-test"
  , defaultLanguage := "minimal"
  , languageMappings := []
  , ic := sampleIC }

/-- A refreshed VM record carrying a NAT IP on its single interface. -/
def sampleVMRecord : ComputeInstance :=
  { description := "Travis CI ruby test VM"
  , disks := []
  , scheduling := { preemptible := true }
  , machineType := sampleIC.machineTypeSelfLink
  , name := "testing-gce-0000"
  , metadata := []
  , networkInterfaces := [{ accessConfigs := some [{ name := "External NAT"
                                                   , type := "ONE_TO_ONE_NAT"
                                                   , natIP := "203.0.113.10" }]
                          , network := sampleIC.networkSelfLink }]
  , serviceAccounts := []
  , tags := [] }

def sampleGCEInstance : GCEInstance :=
  { inst := sampleVMRecord
  , authUser := "travis"
  , projectID := "travis-ci-test"
  , imageName := "travis-ci-ruby-1" }

def healthySSHEnv : SSHEnv := { refreshResult := none, dialError := none }

def sampleConn : SSHConn :=
  { addr := "203.0.113.10:22", user := "travis", auth := .publicKeys }

/-- Upload oracles for a stale VM: every transport call succeeds and
build.sh is already present. -/
def staleUploadEnv : UploadEnv :=
  { ssh := healthySSHEnv
  , sftpNewClientError := none
  , files := [gceBuildScriptPath]
  , createError := none
  , writeError := none }

def sampleOpError : OperationError :=
  { errors := [ { code := "QUOTA_EXCEEDED", location := "zone", message := "cpus" }
              , { code := "RESOURCE_POOL_EXHAUSTED", location := "zone", message := "vms" } ] }

/-! Lemmas connecting the executable string comparison to the order on
String, and the properties of maxStr and findLastByName. -/

theorem strLtChars_iff (as : List Char) : ∀ bs, strLtChars as bs = true ↔ as < bs := by
  induction as with
  | nil =>
    intro bs
    cases bs with
    | nil =>
      refine iff_of_false (by simp [strLtChars]) ?_
      intro h
      cases h
    | cons b bs =>
      refine iff_of_true (by simp [strLtChars]) List.Lex.nil
  | cons a as ih =>
    intro bs
    cases bs with
    | nil =>
      refine iff_of_false (by simp [strLtChars]) ?_
      intro h
      cases h
    | cons b bs =>
      unfold strLtChars
      by_cases hab : a < b
      · rw [if_pos hab]
        exact iff_of_true rfl (List.Lex.rel hab)
      · by_cases hba : b < a
        · rw [if_neg hab, if_pos hba]
          refine iff_of_false (by simp) ?_
          intro h
          cases h with
          | cons h3 => exact absurd hba (lt_irrefl _)
          | rel h2 => exact hab h2
        · have heq : a = b := le_antisymm (le_of_not_lt hba) (le_of_not_lt hab)
          subst heq
          rw [if_neg hab, if_neg hba, ih bs]
          constructor
          · exact fun h => List.Lex.cons h
          · intro h
            cases h with
            | cons h3 => exact h3
            | rel h2 => exact absurd h2 hab

theorem strLt_iff (a b : String) : strLt a b = true ↔ a < b := by
  rw [String.lt_iff_toList_lt]
  exact strLtChars_iff a.data b.data

theorem strMax_left (a b : String) : a ≤ strMax a b := by
  unfold strMax
  by_cases h : strLt a b = true
  · simp only [h, if_pos]
    exact le_of_lt ((strLt_iff a b).mp h)
  · simp only [Bool.not_eq_true] at h
    simp [h]

theorem strMax_right (a b : String) : b ≤ strMax a b := by
  unfold strMax
  by_cases h : strLt a b = true
  · simp [h]
  · have hnb : ¬ a < b := fun hlt => h ((strLt_iff a b).mpr hlt)
    simp only [Bool.not_eq_true] at h
    simp only [h, Bool.false_eq_true, if_false]
    exact le_of_not_lt hnb

theorem maxStr_choice (l : List String) : ∀ s, maxStr s l = s ∨ maxStr s l ∈ l := by
  induction l with
  | nil => intro s; exact Or.inl rfl
  | cons x xs ih =>
    intro s
    simp only [maxStr]
    rcases ih (strMax s x) with h | h
    · rw [h]
      unfold strMax
      by_cases hc : strLt s x = true
      · simp [hc]
      · simp only [Bool.not_eq_true] at hc
        simp [hc]
    · right
      exact List.mem_cons_of_mem x h

theorem le_maxStr (l : List String) :
    ∀ s, s ≤ maxStr s l ∧ ∀ x ∈ l, x ≤ maxStr s l := by
  induction l with
  | nil =>
    intro s
    exact ⟨le_refl s, by simp⟩
  | cons y ys ih =>
    intro s
    obtain ⟨h1, h2⟩ := ih (strMax s y)
    simp only [maxStr]
    refine ⟨le_trans (strMax_left s y) h1, ?_⟩
    intro x hx
    rcases List.mem_cons.mp hx with rfl | hx2
    · exact le_trans (strMax_right s x) h1
    · exact h2 x hx2

theorem findLastByName_name (imgs : List Image) (n : String) :
    ∀ img, findLastByName imgs n = some img → img.name = n := by
  induction imgs with
  | nil =>
    intro img h
    simp [findLastByName] at h
  | cons i2 rest ih =>
    intro img h
    unfold findLastByName at h
    cases hr : findLastByName rest n with
    | some i3 =>
      rw [hr] at h
      injection h with h
      subst h
      exact ih i3 hr
    | none =>
      rw [hr] at h
      by_cases he : i2.name = n
      · rw [if_pos he] at h
        injection h with h
        subst h
        exact he
      · rw [if_neg he] at h
        cases h

theorem findLastByName_isSome (imgs : List Image) (n : String) :
    n ∈ imgs.map Image.name → ∃ img, findLastByName imgs n = some img := by
  induction imgs with
  | nil => simp
  | cons i2 rest ih =>
    intro h
    unfold findLastByName
    cases hr : findLastByName rest n with
    | some i3 => exact ⟨i3, rfl⟩
    | none =>
      simp only [List.map_cons, List.mem_cons] at h
      rcases h with h | h
      · exact ⟨i2, by rw [if_pos h.symm]⟩
      · obtain ⟨img, hf⟩ := ih h
        rw [hf] at hr
        cases hr

theorem findLastByName_found (imgs : List Image) (n : String)
    (h : n ∈ imgs.map Image.name) :
    ∃ img, findLastByName imgs n = some img ∧ img.name = n := by
  obtain ⟨img, hf⟩ := findLastByName_isSome imgs n h
  exact ⟨img, hf, findLastByName_name imgs n img hf⟩

/-- The names of the images that match the filter for a language. -/
def matchingNames (allImages : List Image) (language : String) : List String :=
  (allImages.filter (fun img => gceImageNameMatches language img.name)).map Image.name

theorem imageForLanguage_eq_ok (allImages : List Image) (language : String)
    (first : Image) (rest : List Image) (img : Image)
    (hit : allImages.filter (fun i2 => gceImageNameMatches language i2.name) = first :: rest)
    (hf : findLastByName (first :: rest) (maxStr first.name (rest.map Image.name)) = some img) :
    imageForLanguage allImages language = .ok img := by
  unfold imageForLanguage
  rw [hit]
  show (match findLastByName (first :: rest) (maxStr first.name (rest.map Image.name)) with
        | some i2 => Except.ok i2
        | none => Except.ok first) = Except.ok img
  rw [hf]

/-! Claim theorems. -/

/-- Claim C1 asserts that every UploadScript call on a VM whose build.sh
already exists returns ErrStaleVM. The code does not guarantee that: with
build.sh present and every transport healthy, each uploadScriptAttempt
does return ErrStaleVM, but UploadScript itself only returns when the
context fires, and when the context fires before the first attempt has
completed it returns nil, the initial value of uploadErr (with a context
that never fires it would not return at all). The spec itself flags this
retry construction as a bug (design note: the loop never terminates on
success and uploadErr is racily assigned). This theorem records the
divergence: the attempt is stale, yet UploadScript with ctxDoneAfter = 0
returns nil; only with at least one completed attempt does it return
ErrStaleVM. -/
theorem C1_uploadScript_staleVM :
    sampleGCEInstance.uploadScriptAttempt staleUploadEnv [] = .error ErrStaleVM ∧
    sampleGCEInstance.UploadScript [] (fun _ => staleUploadEnv) 0 = none ∧
    sampleGCEInstance.UploadScript [] (fun _ => staleUploadEnv) 1 = some ErrStaleVM := by
  refine ⟨by decide, by decide, by decide⟩

/-- Provider with the mapping ruby→jvm, used to separate the candidate
order of the code from the candidate order claimed by the spec. -/
def rubyJvmProvider : GCEProvider :=
  { projectID := "travis-ci-test"
  , defaultLanguage := "minimal"
  , languageMappings := [("ruby", "jvm")]
  , ic := sampleIC }

def rubyJvmImages : List Image :=
  [ { name := "travis-ci-ruby-1", selfLink := "links/travis-ci-ruby-1" }
  , { name := "travis-ci-jvm-9", selfLink := "links/travis-ci-jvm-9" }
  , { name := "travis-ci-minimal-1", selfLink := "links/travis-ci-minimal-1" } ]

/-- Claim C4 counterexample. The claim (and the spec sentence) order the
candidates mapped language first: languageMappings[lang] if present, else
lang, else the default. The code builds [lang, mapped?, default] instead:
the raw job language is always tried first. With mapping ruby→jvm and
images available for both ruby and jvm, the code selects the ruby image
while the claimed order would select the jvm image. -/
theorem C4_counterexample :
    candidateLangs rubyJvmProvider "ruby" = ["ruby", "jvm", "minimal"] ∧
    specCandidateLangs rubyJvmProvider "ruby" = ["jvm", "minimal"] ∧
    selectImage rubyJvmProvider "ruby" rubyJvmImages =
      .ok { name := "travis-ci-ruby-1", selfLink := "links/travis-ci-ruby-1" } ∧
    specSelectImage rubyJvmProvider "ruby" rubyJvmImages =
      .ok { name := "travis-ci-jvm-9", selfLink := "links/travis-ci-jvm-9" } ∧
    ("travis-ci-ruby-1" : String) ≠ "travis-ci-jvm-9" := by
  refine ⟨by decide, by decide, by decide, by decide, by decide⟩

/-- Claim C4 amended: the candidate order is the job language itself first,
then languageMappings[lang] when that mapping is present, then the
configured default language; the first candidate for which
imageForLanguage succeeds supplies the image, and a failed candidate makes
the loop move to the next one. -/
theorem C4_candidateOrder (p : GCEProvider) (language : String) :
    (candidateLangs p language =
      language :: ((p.languageMappings.lookup language).toList ++ [p.defaultLanguage])) ∧
    (∀ (f : String → Except GoErr Image) (c : String) (rest : List String) (img : Image),
      f c = .ok img → tryCandidates f (c :: rest) = .ok img) ∧
    (∀ (f : String → Except GoErr Image) (c c2 : String) (rest : List String) (e : GoErr),
      f c = .error e → tryCandidates f (c :: c2 :: rest) = tryCandidates f (c2 :: rest)) := by
  refine ⟨?_, ?_, ?_⟩
  · unfold candidateLangs
    cases p.languageMappings.lookup language <;> simp
  · intro f c rest img hf
    cases rest with
    | nil => simpa [tryCandidates] using hf
    | cons c2 rest2 => simp [tryCandidates, hf]
  · intro f c c2 rest e hf
    simp [tryCandidates, hf]

/-- Claim C4 amended, witness: the first candidate ruby succeeds, so the
loop returns its image without consulting the mapped candidate. -/
theorem C4_candidateOrder_witness :
    tryCandidates (imageForLanguage rubyJvmImages) ["ruby", "jvm"] =
      .ok { name := "travis-ci-ruby-1", selfLink := "links/travis-ci-ruby-1" } :=
  (C4_candidateOrder rubyJvmProvider "ruby").2.1 (imageForLanguage rubyJvmImages)
    "ruby" ["jvm"] _ (by decide)

/-- Provider of the image-selection scenario of the spec: mapping
py→python, default language minimal. -/
def pyProvider : GCEProvider :=
  { projectID := "travis-ci-test"
  , defaultLanguage := "minimal"
  , languageMappings := [("py", "python")]
  , ic := sampleIC }

def pyImages : List Image :=
  [ { name := "travis-ci-python-1", selfLink := "links/travis-ci-python-1" }
  , { name := "travis-ci-python-2", selfLink := "links/travis-ci-python-2" }
  , { name := "travis-ci-minimal-9", selfLink := "links/travis-ci-minimal-9" } ]

/-- Claim C5: whenever a language candidate has at least one matching
image, imageForLanguage returns an image whose name is the
lexicographically greatest of the matching names; and in the concrete
scenario of the spec (mapping py→python, default minimal, job language py,
images travis-ci-python-1, travis-ci-python-2, travis-ci-minimal-9) the
selection returns travis-ci-python-2. In that scenario the first
candidate, the raw language py, already matches both python images, since
the name filter is the prefix pattern travis-ci-py.+ . -/
theorem C5_lexGreatest :
    (∀ (allImages : List Image) (language : String),
      matchingNames allImages language ≠ [] →
      ∃ img, imageForLanguage allImages language = .ok img ∧
        img.name ∈ matchingNames allImages language ∧
        ∀ nm ∈ matchingNames allImages language, nm ≤ img.name) ∧
    selectImage pyProvider "py" pyImages =
      .ok { name := "travis-ci-python-2", selfLink := "links/travis-ci-python-2" } := by
  constructor
  · intro allImages language h
    cases hit : allImages.filter (fun i2 => gceImageNameMatches language i2.name) with
    | nil =>
      exact absurd (by unfold matchingNames; rw [hit]; rfl) h
    | cons first rest =>
      have hnames : matchingNames allImages language = first.name :: rest.map Image.name := by
        unfold matchingNames
        rw [hit, List.map_cons]
      have hmem : maxStr first.name (rest.map Image.name) ∈ (first :: rest).map Image.name := by
        rw [List.map_cons]
        rcases maxStr_choice (rest.map Image.name) first.name with hc | hc
        · rw [hc]; exact List.mem_cons_self _ _
        · exact List.mem_cons_of_mem _ hc
      obtain ⟨img, hf, hname⟩ := findLastByName_found _ _ hmem
      refine ⟨img, imageForLanguage_eq_ok allImages language first rest img hit hf, ?_, ?_⟩
      · rw [hnames, hname, ← List.map_cons]
        exact hmem
      · intro nm hnm
        rw [hnames] at hnm
        rw [hname]
        rcases List.mem_cons.mp hnm with heq | h2
        · rw [heq]
          exact (le_maxStr (rest.map Image.name) first.name).1
        · exact (le_maxStr (rest.map Image.name) first.name).2 nm h2
  · decide

/-- Claim C5 witness: the general statement applied to the candidate py of
the concrete scenario, whose matching images are the two python images. -/
theorem C5_lexGreatest_witness :
    ∃ img, imageForLanguage pyImages "py" = .ok img ∧
      img.name ∈ matchingNames pyImages "py" ∧
      ∀ nm ∈ matchingNames pyImages "py", nm ≤ img.name :=
  C5_lexGreatest.1 pyImages "py" (by decide)

/-- Claim C6 counterexample. The claim asserts a non-zero process exit
status when startup fails (for instance when the AMQP dial fails). In the
code runWorker logs the dial failure and returns, main ignores the result
of app.Run, and os.Exit is never called, so the process exit status is 0
on that path as well. -/
theorem C6_counterexample :
    runWorker { amqpDialError := some (.other "connection refused")
              , newProviderError := none
              , amqpCloseError := none } =
      .amqpDialFailed (.other "connection refused") ∧
    mainExitStatus { amqpDialError := some (.other "connection refused")
                   , newProviderError := none
                   , amqpCloseError := none } = 0 := by
  refine ⟨by decide, by decide⟩

/-- Claim C6 amended: the worker process exits with status 0 on clean
shutdown, and also exits with status 0 when startup fails (AMQP dial
failure or backend provider creation failure): those paths only log the
error before returning, so every run of the process exits 0. -/
theorem C6_exitStatus (env : WorkerEnv) :
    mainExitStatus env = 0 := by
  unfold mainExitStatus
  cases runWorker env <;> rfl

/-- Claim C2: when the transport is healthy (ssh dial, session and pty
succeed), a natural exit of the script with status 0 (a nil error from
session.Run) yields (RunResult{Completed:true, ExitCode:0}, nil), a
natural exit with status s (an ssh.ExitError) yields
(RunResult{Completed:true, ExitCode:s}, nil) for any status below 256
(the ExitCode field is a uint8 and the source casts the status to it),
and any other error from session.Run yields
(RunResult{Completed:false}, err); when the invocation fails before the
script runs (dial, session or pty failure) the result is
(RunResult{Completed:false}, err) with that non-nil error. -/
theorem C2_runScript (i : GCEInstance) (env : RunEnv) :
    (∀ conn : SSHConn, i.sshClient env.ssh = .ok conn → env.newSessionError = none →
      env.requestPtyError = none →
      ((env.run gceRunCommand = .exitZero →
         i.RunScript env = ({ completed := true, exitCode := 0 }, none)) ∧
       (∀ s : Nat, s < 256 → env.run gceRunCommand = .exitErrorStatus s →
         i.RunScript env = ({ completed := true, exitCode := s }, none)) ∧
       (∀ e : GoErr, env.run gceRunCommand = .otherErr e →
         i.RunScript env = ({ completed := false, exitCode := 0 }, some e)))) ∧
    (∀ e : GoErr, i.sshClient env.ssh = .error e →
      i.RunScript env = ({ completed := false, exitCode := 0 }, some e)) ∧
    (∀ (conn : SSHConn) (e : GoErr), i.sshClient env.ssh = .ok conn →
      env.newSessionError = some e →
      i.RunScript env = ({ completed := false, exitCode := 0 }, some e)) ∧
    (∀ (conn : SSHConn) (e : GoErr), i.sshClient env.ssh = .ok conn →
      env.newSessionError = none → env.requestPtyError = some e →
      i.RunScript env = ({ completed := false, exitCode := 0 }, some e)) := by
  refine ⟨?_, ?_, ?_, ?_⟩
  · intro conn hssh hsess hpty
    refine ⟨?_, ?_, ?_⟩
    · intro hrun
      simp [GCEInstance.RunScript, hssh, hsess, hpty, hrun, interpRunOutcome]
    · intro s hs hrun
      simp [GCEInstance.RunScript, hssh, hsess, hpty, hrun, interpRunOutcome,
        Nat.mod_eq_of_lt hs]
    · intro e hrun
      simp [GCEInstance.RunScript, hssh, hsess, hpty, hrun, interpRunOutcome]
  · intro e hssh
    simp [GCEInstance.RunScript, hssh]
  · intro conn e hssh hsess
    simp [GCEInstance.RunScript, hssh, hsess]
  · intro conn e hssh hsess hpty
    simp [GCEInstance.RunScript, hssh, hsess, hpty]

/-- Run oracles for a healthy transport whose script exits with status 42. -/
def exit42RunEnv : RunEnv :=
  { ssh := healthySSHEnv
  , newSessionError := none
  , requestPtyError := none
  , run := fun _ => .exitErrorStatus 42 }

/-- Claim C2 witness: script exit 42 over a healthy transport gives
(completed, exit 42) and no error. -/
theorem C2_runScript_witness :
    sampleGCEInstance.RunScript exit42RunEnv = ({ completed := true, exitCode := 42 }, none) :=
  ((C2_runScript sampleGCEInstance exit42RunEnv).1 sampleConn (by decide) rfl rfl).2.1
    42 (by decide) rfl

/-- Claim C3: when image selection and the insert request succeed and the
select over (instanceReady, errChan, ctx.Done()) observes the context
first, Start returns the error of the context (its cancellation cause)
and no instance. -/
theorem C3_start_ctxCancel (p : GCEProvider) (attrs : StartAttributes) (env : StartEnv)
    (img : Image) (c : CtxError)
    (himg : selectImage p attrs.language env.allImages = .ok img)
    (hins : env.insertError = none)
    (hctx : env.bootEvent = .ctxDone c) :
    p.Start attrs env = .error (.ctxErr c) ∧
    ∀ gi : GCEInstance, p.Start attrs env ≠ .ok gi := by
  have h : p.Start attrs env = .error (.ctxErr c) := by
    unfold GCEProvider.Start
    rw [himg, hins, hctx]
  refine ⟨h, ?_⟩
  intro gi hgi
  rw [h] at hgi
  exact Except.noConfusion hgi

/-- Start oracles whose boot wait is won by a cancelled context. -/
def ctxCancelStartEnv : StartEnv :=
  { allImages := [{ name := "travis-ci-minimal-1", selfLink := "links/travis-ci-minimal-1" }]
  , uuid := "0000"
  , insertError := none
  , bootEvent := .ctxDone .canceled }

/-- Claim C3 witness: a provider with a minimal image available boots a
ruby job, the context is cancelled during the boot wait, and Start
returns the cancellation error. -/
theorem C3_start_ctxCancel_witness :
    sampleProviderPlain.Start { language := "ruby" } ctxCancelStartEnv =
      .error (.ctxErr .canceled) :=
  (C3_start_ctxCancel sampleProviderPlain { language := "ruby" } ctxCancelStartEnv
    { name := "travis-ci-minimal-1", selfLink := "links/travis-ci-minimal-1" }
    .canceled (by decide) rfl rfl).1

/-- Claim C7: Stop issues the delete request and then waits on the zone
operation poll against ctx.Done(). It returns nil exactly when the delete
request succeeded and the poll observed DONE with no operation error;
a DONE with an operation error is surfaced as the structured gceOpError
wrapping every sub-error, whose message joins the formatted sub-errors;
the error of the context is returned when the context fires first; a
failed poll surfaces that error. -/
theorem C7_stop (i : GCEInstance) (env : StopEnv) :
    (i.Stop env = none ↔ env.deleteError = none ∧ env.pollEvent = .done none) ∧
    (∀ oe : OperationError, env.deleteError = none → env.pollEvent = .done (some oe) →
      i.Stop env = some (.opErr oe) ∧
      gceOpErrorMessage oe = String.intercalate ", " (oe.errors.map gceOpErrorItemString)) ∧
    (∀ c : CtxError, env.deleteError = none → env.pollEvent = .ctxDone c →
      i.Stop env = some (.ctxErr c)) ∧
    (∀ e : GoErr, env.deleteError = none → env.pollEvent = .pollFailed e →
      i.Stop env = some e) := by
  refine ⟨?_, ?_, ?_, ?_⟩
  · unfold GCEInstance.Stop
    cases hd : env.deleteError with
    | some e => simp
    | none =>
      cases hp : env.pollEvent with
      | done o => cases o <;> simp
      | pollFailed e => simp
      | ctxDone c => simp
  · intro oe h1 h2
    exact ⟨by simp [GCEInstance.Stop, h1, h2], rfl⟩
  · intro c h1 h2
    simp [GCEInstance.Stop, h1, h2]
  · intro e h1 h2
    simp [GCEInstance.Stop, h1, h2]

/-- Claim C7 witness: a delete whose operation finishes DONE with two
sub-errors makes Stop return the structured operation error. -/
theorem C7_stop_witness :
    sampleGCEInstance.Stop { deleteError := none, pollEvent := .done (some sampleOpError) } =
      some (.opErr sampleOpError) :=
  ((C7_stop sampleGCEInstance
      { deleteError := none, pollEvent := .done (some sampleOpError) }).2.1
    sampleOpError rfl rfl).1

/-- Claim C8: every insertion request built by Start is preemptible,
carries exactly one disk — a boot disk with auto-delete initialized from
the self link of the selected image — exactly one network interface with a
single ONE_TO_ONE_NAT access config, and a startup-script metadata entry
whose value is the script that writes the configured public key into
~travis/.ssh/authorized_keys. -/
theorem C8_vmRequest (p : GCEProvider) (language : String) (image : Image) (uuid : String) :
    (gceBuildInst p language image uuid).scheduling.preemptible = true ∧
    (gceBuildInst p language image uuid).disks =
      [{ type := "PERSISTENT", mode := "READ_WRITE", boot := true, autoDelete := true
       , initializeParams := { sourceImage := image.selfLink, diskType := p.ic.diskType
                             , diskSizeGb := p.ic.diskSize } }] ∧
    (gceBuildInst p language image uuid).disks.length = 1 ∧
    (gceBuildInst p language image uuid).networkInterfaces =
      [{ accessConfigs := some [{ name := "AccessConfig brought to you by travis-worker"
                                , type := "ONE_TO_ONE_NAT", natIP := "" }]
       , network := p.ic.networkSelfLink }] ∧
    (gceBuildInst p language image uuid).networkInterfaces.length = 1 ∧
    (gceBuildInst p language image uuid).metadata =
      [{ key := "startup-script", value := gceStartupScript p.ic.sshPubKey }] ∧
    gceStartupScript p.ic.sshPubKey =
      "#!/usr/bin/env bash\ncat > ~travis/.ssh/authorized_keys <<EOF\n"
        ++ p.ic.sshPubKey ++ "\nEOF\n" :=
  ⟨rfl, rfl, rfl, rfl, rfl, rfl, rfl⟩

/-- Claim C9: the upload path and the run path are the same fixed file.
A successful upload attempt writes the script bytes to build.sh in the
directory the SFTP session starts in (the home directory of the
authenticated user); the run command is the string bash ~/build.sh built
from that same file name; a successful sshClient dials the NAT IP of the
(refreshed) instance record on port 22 as the travis authUser with
public-key authentication; and a healthy RunScript executes exactly
gceRunCommand through session.Run. -/
theorem C9_fixedPaths (i : GCEInstance) :
    gceRunCommand = "bash ~/" ++ gceBuildScriptPath ∧
    (∀ (env : UploadEnv) (script : List UInt8) (w : SFTPWrite),
      i.uploadScriptAttempt env script = .ok w →
      w.path = gceBuildScriptPath ∧ w.contents = script) ∧
    (∀ (env : SSHEnv) (conn : SSHConn), i.sshClient env = .ok conn →
      conn.addr = (refreshedInstance i env).getIP ++ ":22" ∧
      conn.auth = .publicKeys ∧ conn.user = (refreshedInstance i env).authUser) ∧
    (∀ (env : RunEnv) (conn : SSHConn), i.sshClient env.ssh = .ok conn →
      env.newSessionError = none → env.requestPtyError = none →
      i.RunScript env = interpRunOutcome (env.run gceRunCommand)) := by
  refine ⟨rfl, ?_, ?_, ?_⟩
  · intro env script w h
    unfold GCEInstance.uploadScriptAttempt at h
    cases hssh : i.sshClient env.ssh with
    | error e =>
      rw [hssh] at h
      exact Except.noConfusion h
    | ok conn =>
      rw [hssh] at h
      cases hn : env.sftpNewClientError with
      | some e =>
        rw [hn] at h
        exact Except.noConfusion h
      | none =>
        rw [hn] at h
        by_cases hc : env.files.contains gceBuildScriptPath = true
        · rw [if_pos hc] at h
          exact Except.noConfusion h
        · rw [if_neg hc] at h
          cases hcr : env.createError with
          | some e =>
            rw [hcr] at h
            exact Except.noConfusion h
          | none =>
            rw [hcr] at h
            cases hw : env.writeError with
            | some e =>
              rw [hw] at h
              exact Except.noConfusion h
            | none =>
              rw [hw] at h
              injection h with h2
              subst h2
              exact ⟨rfl, rfl⟩
  · intro env conn h
    simp only [GCEInstance.sshClient] at h
    by_cases hip : (refreshedInstance i env).getIP = ""
    · rw [if_pos hip] at h
      exact Except.noConfusion h
    · rw [if_neg hip] at h
      cases hd : env.dialError with
      | some e =>
        rw [hd] at h
        exact Except.noConfusion h
      | none =>
        rw [hd] at h
        injection h with h2
        subst h2
        exact ⟨rfl, rfl, rfl⟩
  · intro env conn hssh hsess hpty
    simp [GCEInstance.RunScript, hssh, hsess, hpty]

/-- Claim C9 witness: over a healthy transport the run phase reduces to
interpreting the outcome of session.Run on gceRunCommand. -/
theorem C9_fixedPaths_witness :
    sampleGCEInstance.RunScript exit42RunEnv =
      interpRunOutcome (exit42RunEnv.run gceRunCommand) :=
  (C9_fixedPaths sampleGCEInstance).2.2.2 exit42RunEnv sampleConn (by decide) rfl rfl

/-- The VM record carries no non-empty NAT IP on any interface. -/
def noNatIP (ci : ComputeInstance) : Bool :=
  ci.networkInterfaces.all (fun ni =>
    match ni.accessConfigs with
    | none => true
    | some acs => acs.all (fun ac => ac.natIP == ""))

theorem firstNatIP_none (acs : List AccessConfig)
    (h : acs.all (fun ac => ac.natIP == "") = true) : firstNatIP acs = none := by
  induction acs with
  | nil => rfl
  | cons ac rest ih =>
    simp only [List.all_cons, Bool.and_eq_true, beq_iff_eq] at h
    unfold firstNatIP
    rw [if_neg (by simp [h.1])]
    exact ih h.2

theorem getIP_empty (nis : List NetworkInterface)
    (h : nis.all (fun ni =>
        match ni.accessConfigs with
        | none => true
        | some acs => acs.all (fun ac => ac.natIP == "")) = true) :
    getIPFromInterfaces nis = "" := by
  induction nis with
  | nil => rfl
  | cons ni rest ih =>
    simp only [List.all_cons, Bool.and_eq_true] at h
    unfold getIPFromInterfaces
    cases hac : ni.accessConfigs with
    | none => exact ih h.2
    | some acs =>
      have h1 : (acs.all fun ac => ac.natIP == "") = true := by
        have h0 := h.1
        rw [hac] at h0
        exact h0
      show (match firstNatIP acs with
            | some ip => ip
            | none => getIPFromInterfaces rest) = ""
      rw [firstNatIP_none acs h1]
      exact ih h.2

/-- Claim C10: when the (refreshed) VM record carries no interface with a
non-empty NAT IP, sshClient fails with gceMissingIPAddressError — the
oracle for ssh.Dial is never consulted, since the arbitrary dialError
field of the environment does not influence the result — and consequently
an upload attempt returns that error and RunScript returns
(RunResult{Completed:false}, that error). -/
theorem C10_missingIP (i : GCEInstance) (uenv : UploadEnv) (renv : RunEnv)
    (script : List UInt8)
    (hup : noNatIP (refreshedInstance i uenv.ssh).inst = true)
    (hrun : noNatIP (refreshedInstance i renv.ssh).inst = true) :
    (refreshedInstance i uenv.ssh).getIP = "" ∧
    i.sshClient uenv.ssh = .error gceMissingIPAddressError ∧
    i.uploadScriptAttempt uenv script = .error gceMissingIPAddressError ∧
    i.RunScript renv = ({ completed := false, exitCode := 0 }, some gceMissingIPAddressError) := by
  have hip1 : (refreshedInstance i uenv.ssh).getIP = "" := getIP_empty _ hup
  have hip2 : (refreshedInstance i renv.ssh).getIP = "" := getIP_empty _ hrun
  have hssh1 : i.sshClient uenv.ssh = .error gceMissingIPAddressError := by
    simp only [GCEInstance.sshClient]
    rw [if_pos hip1]
  have hssh2 : i.sshClient renv.ssh = .error gceMissingIPAddressError := by
    simp only [GCEInstance.sshClient]
    rw [if_pos hip2]
  refine ⟨hip1, hssh1, ?_, ?_⟩
  · simp [GCEInstance.uploadScriptAttempt, hssh1]
  · simp [GCEInstance.RunScript, hssh2]

/-- A handle whose VM record is a fresh insertion request: its single
access config has no NAT IP yet. -/
def noIPInstance : GCEInstance :=
  { inst := gceBuildInst sampleProviderPlain "ruby"
      { name := "travis-ci-ruby-1", selfLink := "links/travis-ci-ruby-1" } "0000"
  , authUser := "travis"
  , projectID := "travis-ci-test"
  , imageName := "travis-ci-ruby-1" }

def noIPUploadEnv : UploadEnv :=
  { ssh := healthySSHEnv
  , sftpNewClientError := none
  , files := []
  , createError := none
  , writeError := none }

def noIPRunEnv : RunEnv :=
  { ssh := healthySSHEnv
  , newSessionError := none
  , requestPtyError := none
  , run := fun _ => .exitZero }

/-- Claim C10 witness: on a fresh request record without NAT IP the ssh
connection, the upload attempt and the run all fail with the missing-IP
sentinel. -/
theorem C10_missingIP_witness :
    (refreshedInstance noIPInstance noIPUploadEnv.ssh).getIP = "" ∧
    noIPInstance.sshClient noIPUploadEnv.ssh = .error gceMissingIPAddressError ∧
    noIPInstance.uploadScriptAttempt noIPUploadEnv [] = .error gceMissingIPAddressError ∧
    noIPInstance.RunScript noIPRunEnv =
      ({ completed := false, exitCode := 0 }, some gceMissingIPAddressError) :=
  C10_missingIP noIPInstance noIPUploadEnv noIPRunEnv [] (by decide) (by decide)

end Worker
